import Mathlib

/-!
Shallow embedding of the InventoryPOS-System transaction core: the cart
operations, the checkout pipeline, the barcode resolution router and the
scanner input decoders, translated from `src/components/POS/POSScreen.jsx`,
`src/context/SyncContext.jsx` (the `BarcodeProvider`) and the product-form
decoder, with theorems settling the frozen specification claims.

Modelling conventions: JS numbers carrying money are embedded as `ℚ`,
stock counts as `ℤ`; `parseFloat` results are `Option ℚ` with `none`
standing for `NaN` (including the empty string); asynchronous fetches of
the authoritative product record are an explicit `String → ℤ` oracle
giving the quantity the fetch returns.
-/

/-- A catalog product record. Cart lines reuse this structure because the
source builds them by spreading the product (`{ ...product, quantity: 1 }`),
so a cart line's `quantity` field holds the cart-line quantity. -/
structure Product where
  id : String
  name : String
  category : String
  price : ℚ
  quantity : ℤ
  barcode : Option String
deriving DecidableEq, Repr

/-- Error taxonomy of the core (spec section 7). -/
inductive POSError where
  | insufficientStock
  | emptyCart
  | insufficientPayment
  | missingReference
  | transactionPersistFailure
  | inventoryApplyFailure
deriving DecidableEq, Repr

/-- Quantity already on the cart line for a product id: the `quantity` of the
first matching line, `0` if none (`cartItem ? cartItem.quantity : 0`). -/
def qtyOf (cart : List Product) (productId : String) : ℤ :=
  match cart.find? (fun item => item.id == productId) with
  | some item => item.quantity
  | none => 0

/-- Embeds `addToCart(product)` from `POSScreen.jsx`: refetch the authoritative
quantity, reject when it is `<=` the quantity already in the cart, otherwise
increment the existing line or append a fresh line with quantity 1.
Returns the resulting cart together with the error surfaced, if any. -/
def addToCart (fetchQty : String → ℤ) (cart : List Product) (product : Product) :
    List Product × Option POSError :=
  let authoritativeQty := fetchQty product.id
  let currentCartQuantity := qtyOf cart product.id
  if authoritativeQty ≤ currentCartQuantity then
    (cart, some .insufficientStock)
  else if (cart.find? (fun item => item.id == product.id)).isSome then
    (cart.map (fun item =>
      if item.id == product.id then { item with quantity := item.quantity + 1 }
      else item), none)
  else
    (cart ++ [{ product with quantity := 1 }], none)

/-- Embeds `removeFromCart(productId)`: unconditional filter. -/
def removeFromCart (cart : List Product) (productId : String) : List Product :=
  cart.filter (fun item => !(item.id == productId))

/-- Embeds `updateQuantity(productId, newQuantity)`: a quantity below 1 removes the
line; otherwise refetch the authoritative quantity and reject when it is
smaller than the requested quantity, else set the line's quantity. -/
def updateQuantity (fetchQty : String → ℤ) (cart : List Product)
    (productId : String) (newQuantity : ℤ) : List Product × Option POSError :=
  if newQuantity < 1 then
    (removeFromCart cart productId, none)
  else if fetchQty productId < newQuantity then
    (cart, some .insufficientStock)
  else
    (cart.map (fun item =>
      if item.id == productId then { item with quantity := newQuantity }
      else item), none)

lemma qtyOf_nil (productId : String) : qtyOf [] productId = 0 := rfl

lemma qtyOf_map_incr (cart : List Product) (pid : String)
    (h : (cart.find? (fun item => item.id == pid)).isSome) :
    qtyOf (cart.map (fun item =>
      if item.id == pid then { item with quantity := item.quantity + 1 }
      else item)) pid = qtyOf cart pid + 1 := by
  induction cart with
  | nil => simp [List.find?] at h
  | cons head tail ih =>
    by_cases hid : head.id = pid
    · simp [qtyOf, List.find?, hid]
    · have hid' : (head.id == pid) = false := by simp [hid]
      simp only [List.map_cons, qtyOf, List.find?, hid', if_neg hid]
      simpa [qtyOf, List.find?, hid'] using
        ih (by simpa [List.find?, hid'] using h)

lemma qtyOf_append_new (cart : List Product) (p : Product)
    (h : cart.find? (fun item => item.id == p.id) = none) :
    qtyOf (cart ++ [{ p with quantity := 1 }]) p.id = 1 := by
  induction cart with
  | nil => simp [qtyOf, List.find?]
  | cons head tail ih =>
    have hhead : (head.id == p.id) = false := by
      by_contra hc
      simp only [Bool.not_eq_false, beq_iff_eq] at hc
      simp [List.find?, hc] at h
    simp only [List.cons_append, qtyOf, List.find?, hhead]
    exact ih (by simpa [List.find?, hhead] using h)

/-- C1: `addToCart` rejects with an insufficient-stock error, leaving the
cart unchanged, exactly when the refetched authoritative quantity is `<=`
the quantity already on that product's cart line (0 if no line); otherwise
it succeeds, the line's quantity becomes one more than before (so a first
add creates the line at quantity 1), and the resulting line quantity never
exceeds the authoritative quantity observed at the time of the call. -/
theorem addToCart_stock_guard (fetchQty : String → ℤ) (cart : List Product)
    (product : Product) :
    ((addToCart fetchQty cart product).2 = some POSError.insufficientStock ↔
      fetchQty product.id ≤ qtyOf cart product.id)
    ∧ (fetchQty product.id ≤ qtyOf cart product.id →
        (addToCart fetchQty cart product).1 = cart)
    ∧ (qtyOf cart product.id < fetchQty product.id →
        (addToCart fetchQty cart product).2 = none
        ∧ qtyOf (addToCart fetchQty cart product).1 product.id
            = qtyOf cart product.id + 1
        ∧ qtyOf (addToCart fetchQty cart product).1 product.id
            ≤ fetchQty product.id) := by
  by_cases hle : fetchQty product.id ≤ qtyOf cart product.id
  · have h1 : addToCart fetchQty cart product = (cart, some .insufficientStock) := by
      unfold addToCart
      simp [hle]
    rw [h1]
    exact ⟨⟨fun _ => hle, fun _ => rfl⟩, fun _ => rfl,
      fun hlt => absurd hle (not_le.mpr hlt)⟩
  · have hlt := lt_of_not_le hle
    by_cases hfind : (cart.find? (fun item => item.id == product.id)).isSome
    · have h1 : addToCart fetchQty cart product =
          (cart.map (fun item =>
            if item.id == product.id then { item with quantity := item.quantity + 1 }
            else item), none) := by
        unfold addToCart
        simp [hle, hfind]
      rw [h1]
      refine ⟨⟨fun h => by simp at h, fun h => absurd h hle⟩,
        fun h => absurd h hle, fun _ => ⟨rfl, ?_, ?_⟩⟩
      · exact qtyOf_map_incr cart product.id hfind
      · rw [qtyOf_map_incr cart product.id hfind]
        exact Int.add_one_le_iff.mpr hlt
    · have hnone : cart.find? (fun item => item.id == product.id) = none := by
        cases hfd : cart.find? (fun item => item.id == product.id) with
        | none => rfl
        | some v => rw [hfd] at hfind; simp at hfind
      have hq0 : qtyOf cart product.id = 0 := by simp [qtyOf, hnone]
      have h1 : addToCart fetchQty cart product =
          (cart ++ [{ product with quantity := 1 }], none) := by
        unfold addToCart
        simp [hle, hfind]
      rw [h1]
      refine ⟨⟨fun h => by simp at h, fun h => absurd h hle⟩,
        fun h => absurd h hle, fun _ => ⟨rfl, ?_, ?_⟩⟩
      · rw [qtyOf_append_new cart product hnone, hq0]
        omega
      · rw [qtyOf_append_new cart product hnone]
        rw [hq0] at hlt
        omega

/-- Witness for C1 at a concrete cart: adding a product with authoritative
stock 5 to a cart already holding 2 of it succeeds and yields line
quantity 3. -/
theorem addToCart_stock_guard_witness :
    qtyOf [{ id := "p1", name := "Coke", category := "Drinks", price := 25,
             quantity := 2, barcode := some "4800888801234" }] "p1" < 5
    ∧ qtyOf (addToCart (fun _ => 5)
        [{ id := "p1", name := "Coke", category := "Drinks", price := 25,
           quantity := 2, barcode := some "4800888801234" }]
        { id := "p1", name := "Coke", category := "Drinks", price := 25,
          quantity := 5, barcode := some "4800888801234" }).1 "p1" = 3 :=
  ⟨by decide,
   ((addToCart_stock_guard (fun _ => 5)
      [{ id := "p1", name := "Coke", category := "Drinks", price := 25,
         quantity := 2, barcode := some "4800888801234" }]
      { id := "p1", name := "Coke", category := "Drinks", price := 25,
        quantity := 5, barcode := some "4800888801234" }).2.2
      (by decide)).2.1⟩

/-- Embeds `calculateSubtotal()` from `POSScreen.jsx`: left fold of
`price * quantity` over the cart, starting at 0. -/
def calculateSubtotal (cart : List Product) : ℚ :=
  cart.foldl (fun total item => total + item.price * (item.quantity : ℚ)) 0

/-- Embeds `calculateTax(subtotal)`: 12% policy rate. -/
def calculateTax (subtotal : ℚ) : ℚ :=
  subtotal * (12 / 100)

/-- Embeds `calculateTotal()`: subtotal plus tax on that subtotal. -/
def calculateTotal (cart : List Product) : ℚ :=
  calculateSubtotal cart + calculateTax (calculateSubtotal cart)

/-- Embeds `getChange()`: `parseFloat(receivedAmount) - calculateTotal()` when the
received-amount field parses, else 0 (`none` models NaN / empty input). -/
def getChange (receivedParsed : Option ℚ) (cart : List Product) : ℚ :=
  match receivedParsed with
  | some r => r - calculateTotal cart
  | none => 0

/-- Closed payment-method enumeration. -/
inductive PaymentMethod where
  | cash
  | card
  | gcash
deriving DecidableEq, Repr

/-- One line snapshot inside a persisted transaction (`transactionData.items`). -/
structure TransactionItem where
  productId : String
  name : String
  category : String
  price : ℚ
  quantity : ℤ
  subtotal : ℚ
deriving DecidableEq, Repr

/-- The immutable `transactionData` record built by `handleCheckout`. -/
structure Transaction where
  items : List TransactionItem
  subtotal : ℚ
  tax : ℚ
  total : ℚ
  paymentMethod : PaymentMethod
  receivedAmount : ℚ
  change : ℚ
  referenceNumber : Option String
deriving DecidableEq, Repr

/-- Operator-facing checkout inputs after parsing: the payment method, the
`parseFloat` result of the received-amount field (`none` models NaN), and the
trimmed reference number. -/
structure CheckoutInput where
  paymentMethod : PaymentMethod
  receivedParsed : Option ℚ
  referenceTrimmed : String
deriving DecidableEq, Repr

/-- Result of one `handleCheckout` run: the cart afterwards, the error
surfaced (if any), the built transaction record, whether the persist write
succeeded, and the inventory write-back requests issued (product id with
the new quantity written). -/
structure CheckoutOutcome where
  cart : List Product
  error : Option POSError
  builtTransaction : Option Transaction
  persisted : Bool
  inventoryWrites : List (String × ℤ)
deriving DecidableEq, Repr

/-- The cash rejection test `!received || received < total`:
JS treats NaN and 0 as falsy. -/
def cashRejected (receivedParsed : Option ℚ) (total : ℚ) : Bool :=
  match receivedParsed with
  | none => true
  | some r => r == 0 || decide (r < total)

/-- Builds `transactionData` as in `handleCheckout`: item snapshots with
per-line subtotals, the derived subtotal/tax/total, the (possibly forced)
received amount, the change (0 for non-cash), and the reference number
(absent for cash). -/
def buildTransaction (cart : List Product) (paymentMethod : PaymentMethod)
    (received : ℚ) (receivedParsed : Option ℚ) (referenceTrimmed : String) :
    Transaction :=
  { items := cart.map (fun item =>
      { productId := item.id
        name := item.name
        category := item.category
        price := item.price
        quantity := item.quantity
        subtotal := item.price * (item.quantity : ℚ) })
    subtotal := calculateSubtotal cart
    tax := calculateTax (calculateSubtotal cart)
    total := calculateTotal cart
    paymentMethod := paymentMethod
    receivedAmount := received
    change := if paymentMethod = .cash then getChange receivedParsed cart else 0
    referenceNumber := if paymentMethod = .cash then none else some referenceTrimmed }

/-- The tail of `handleCheckout` after validation: build the transaction,
attempt the single persist write (abort with everything untouched on
failure), then issue one inventory write-back per cart line computed as
`max(0, refetched - requested)`; the cart is cleared only when every
write succeeds (`Promise.all`). -/
def checkoutCommit (fetchQty : String → ℤ) (persistOk inventoryOk : Bool)
    (cart : List Product) (input : CheckoutInput) (received : ℚ) :
    CheckoutOutcome :=
  let tx := buildTransaction cart input.paymentMethod received
    input.receivedParsed input.referenceTrimmed
  if !persistOk then
    { cart := cart, error := some .transactionPersistFailure
      builtTransaction := some tx, persisted := false, inventoryWrites := [] }
  else
    let writes := cart.map (fun item =>
      (item.id, max 0 (fetchQty item.id - item.quantity)))
    if inventoryOk then
      { cart := [], error := none, builtTransaction := some tx
        persisted := true, inventoryWrites := writes }
    else
      { cart := cart, error := some .inventoryApplyFailure
        builtTransaction := some tx, persisted := true, inventoryWrites := writes }

/-- Embeds `handleCheckout()` from `POSScreen.jsx`: empty-cart guard, payment
validation by method (cash: `!received || received < total`; card/gcash:
non-empty trimmed reference, received forced to total), then commit. -/
def handleCheckout (fetchQty : String → ℤ) (persistOk inventoryOk : Bool)
    (cart : List Product) (input : CheckoutInput) : CheckoutOutcome :=
  if cart.isEmpty then
    { cart := cart, error := some .emptyCart, builtTransaction := none
      persisted := false, inventoryWrites := [] }
  else
    let total := calculateTotal cart
    match input.paymentMethod with
    | .cash =>
      if cashRejected input.receivedParsed total then
        { cart := cart, error := some .insufficientPayment
          builtTransaction := none, persisted := false, inventoryWrites := [] }
      else
        checkoutCommit fetchQty persistOk inventoryOk cart input
          (input.receivedParsed.getD 0)
    | _ =>
      if input.referenceTrimmed == "" then
        { cart := cart, error := some .missingReference
          builtTransaction := none, persisted := false, inventoryWrites := [] }
      else
        checkoutCommit fetchQty persistOk inventoryOk cart input total

/-- Payment validation predicate, mirroring exactly the rejection tests of
`handleCheckout`. -/
def paymentAccepted (cart : List Product) (input : CheckoutInput) : Bool :=
  match input.paymentMethod with
  | .cash => !cashRejected input.receivedParsed (calculateTotal cart)
  | _ => !(input.referenceTrimmed == "")

lemma cashRejected_iff (receivedParsed : Option ℚ) (total : ℚ) :
    cashRejected receivedParsed total = true ↔
      (receivedParsed = none ∨ receivedParsed = some 0
        ∨ ∃ r, receivedParsed = some r ∧ r < total) := by
  cases receivedParsed with
  | none => simp [cashRejected]
  | some r =>
    simp only [cashRejected, Bool.or_eq_true, beq_iff_eq, decide_eq_true_eq,
      Option.some.injEq, reduceCtorEq, false_or]
    constructor
    · rintro (h | h)
      · exact Or.inl h
      · exact Or.inr ⟨r, rfl, h⟩
    · rintro (h | ⟨r', hr', hlt⟩)
      · exact Or.inl h
      · cases hr'
        exact Or.inr hlt

lemma checkoutCommit_shape (fetchQty : String → ℤ) (persistOk inventoryOk : Bool)
    (cart : List Product) (input : CheckoutInput) (received : ℚ) :
    (checkoutCommit fetchQty persistOk inventoryOk cart input received).error
        ≠ some POSError.insufficientPayment
    ∧ (checkoutCommit fetchQty persistOk inventoryOk cart input received).error
        ≠ some POSError.missingReference
    ∧ (checkoutCommit fetchQty persistOk inventoryOk cart input received).builtTransaction
        = some (buildTransaction cart input.paymentMethod received
            input.receivedParsed input.referenceTrimmed) := by
  cases persistOk <;> cases inventoryOk <;> simp [checkoutCommit]

/-- C2: if the single `createTransaction` write fails during a validated
checkout, the whole checkout aborts atomically — the cart is exactly as it
was, no inventory write-back is issued, nothing is persisted, and the
classified persist-failure error is surfaced. -/
theorem checkout_persist_failure_atomic (fetchQty : String → ℤ)
    (inventoryOk : Bool) (cart : List Product) (input : CheckoutInput)
    (hne : cart ≠ []) (hval : paymentAccepted cart input = true) :
    (handleCheckout fetchQty false inventoryOk cart input).cart = cart
    ∧ (handleCheckout fetchQty false inventoryOk cart input).inventoryWrites = []
    ∧ (handleCheckout fetchQty false inventoryOk cart input).error
        = some POSError.transactionPersistFailure
    ∧ (handleCheckout fetchQty false inventoryOk cart input).persisted = false := by
  obtain ⟨pm, rp, ref⟩ := input
  have hne' : cart.isEmpty = false := by
    simpa [List.isEmpty_iff] using hne
  cases pm with
  | cash =>
    have hrej : cashRejected rp (calculateTotal cart) = false := by
      simpa [paymentAccepted] using hval
    simp [handleCheckout, hne', hrej, checkoutCommit]
  | card =>
    have href : (ref == "") = false := by
      simpa [paymentAccepted] using hval
    simp [handleCheckout, hne', href, checkoutCommit]
  | gcash =>
    have href : (ref == "") = false := by
      simpa [paymentAccepted] using hval
    simp [handleCheckout, hne', href, checkoutCommit]

/-- Witness for C2: persist failure on a one-line cash cart leaves the cart
intact. -/
theorem checkout_persist_failure_atomic_witness :
    (([{ id := "p1", name := "Coke", category := "Drinks", price := 100,
         quantity := 2, barcode := none }] : List Product) ≠ [])
    ∧ paymentAccepted
        [{ id := "p1", name := "Coke", category := "Drinks", price := 100,
           quantity := 2, barcode := none }]
        { paymentMethod := .cash, receivedParsed := some 300,
          referenceTrimmed := "" } = true
    ∧ (handleCheckout (fun _ => 10) false true
        [{ id := "p1", name := "Coke", category := "Drinks", price := 100,
           quantity := 2, barcode := none }]
        { paymentMethod := .cash, receivedParsed := some 300,
          referenceTrimmed := "" }).cart
      = [{ id := "p1", name := "Coke", category := "Drinks", price := 100,
           quantity := 2, barcode := none }] :=
  ⟨by decide,
   by norm_num [paymentAccepted, cashRejected, calculateTotal,
     calculateSubtotal, calculateTax],
   (checkout_persist_failure_atomic (fun _ => 10) true
     [{ id := "p1", name := "Coke", category := "Drinks", price := 100,
        quantity := 2, barcode := none }]
     { paymentMethod := .cash, receivedParsed := some 300,
       referenceTrimmed := "" } (by decide)
     (by norm_num [paymentAccepted, cashRejected, calculateTotal,
       calculateSubtotal, calculateTax])).1⟩

/-- C3 counterexample: with a non-empty cart totalling 0 (a zero-priced
line) and a received amount that parses as the non-negative number 0 (which
is `>=` the total), the code still rejects with the insufficient-payment
error, because `!received` treats a parsed 0 as falsy. -/
theorem checkout_cash_zero_rejected :
    calculateTotal
      [{ id := "p0", name := "Freebie", category := "Promo", price := 0,
         quantity := 1, barcode := none }] ≤ 0
    ∧ (handleCheckout (fun _ => 10) true true
        [{ id := "p0", name := "Freebie", category := "Promo", price := 0,
           quantity := 1, barcode := none }]
        { paymentMethod := .cash, receivedParsed := some 0,
          referenceTrimmed := "" }).error = some POSError.insufficientPayment := by
  constructor
  · norm_num [calculateTotal, calculateSubtotal, calculateTax]
  · norm_num [handleCheckout, cashRejected]

/-- C3 (amended): with a non-empty cart, cash checkout is rejected with the
insufficient-payment error exactly when the received amount fails to parse,
parses to 0 (JS falsiness — rejected even when the total is 0), or parses
below the total; on acceptance the built transaction records the parsed
amount and `change = received - total`. Card/gcash checkout is rejected
with the missing-reference error exactly when the trimmed reference number
is empty; on acceptance the received amount is forced to the total and the
change is 0. -/
theorem checkout_payment_validation (fetchQty : String → ℤ)
    (persistOk inventoryOk : Bool) (cart : List Product) (input : CheckoutInput)
    (hne : cart ≠ []) :
    (input.paymentMethod = .cash →
      (((handleCheckout fetchQty persistOk inventoryOk cart input).error
          = some POSError.insufficientPayment)
        ↔ (input.receivedParsed = none ∨ input.receivedParsed = some 0
            ∨ ∃ r, input.receivedParsed = some r ∧ r < calculateTotal cart))
      ∧ (∀ r, input.receivedParsed = some r →
          cashRejected input.receivedParsed (calculateTotal cart) = false →
          ∃ tx, (handleCheckout fetchQty persistOk inventoryOk cart
              input).builtTransaction = some tx
            ∧ tx.receivedAmount = r ∧ tx.change = r - calculateTotal cart))
    ∧ ((input.paymentMethod = .card ∨ input.paymentMethod = .gcash) →
      (((handleCheckout fetchQty persistOk inventoryOk cart input).error
          = some POSError.missingReference)
        ↔ input.referenceTrimmed = "")
      ∧ (input.referenceTrimmed ≠ "" →
          ∃ tx, (handleCheckout fetchQty persistOk inventoryOk cart
              input).builtTransaction = some tx
            ∧ tx.receivedAmount = calculateTotal cart ∧ tx.change = 0)) := by
  obtain ⟨pm, rp, ref⟩ := input
  have hne' : cart.isEmpty = false := by
    simpa [List.isEmpty_iff] using hne
  cases pm with
  | cash =>
    refine ⟨fun _ => ⟨?_, ?_⟩, fun h => by rcases h with h | h <;> simp at h⟩
    · by_cases hrej : cashRejected rp (calculateTotal cart) = true
      · have hred : (handleCheckout fetchQty persistOk inventoryOk cart
            ⟨.cash, rp, ref⟩).error = some POSError.insufficientPayment := by
          simp [handleCheckout, hne', hrej]
        exact iff_of_true hred ((cashRejected_iff rp (calculateTotal cart)).mp hrej)
      · have hred : handleCheckout fetchQty persistOk inventoryOk cart
            ⟨.cash, rp, ref⟩ = checkoutCommit fetchQty persistOk inventoryOk cart
            ⟨.cash, rp, ref⟩ (rp.getD 0) := by
          simp [handleCheckout, hne', hrej]
        rw [hred]
        exact iff_of_false
          (checkoutCommit_shape fetchQty persistOk inventoryOk cart
            ⟨.cash, rp, ref⟩ (rp.getD 0)).1
          (fun h => hrej ((cashRejected_iff rp (calculateTotal cart)).mpr h))
    · intro r hr hrej
      subst hr
      have hred : handleCheckout fetchQty persistOk inventoryOk cart
          ⟨.cash, some r, ref⟩ = checkoutCommit fetchQty persistOk inventoryOk cart
          ⟨.cash, some r, ref⟩ ((some r).getD 0) := by
        simp [handleCheckout, hne', hrej]
      rw [hred]
      refine ⟨buildTransaction cart .cash r (some r) ref,
        (checkoutCommit_shape fetchQty persistOk inventoryOk cart
          ⟨.cash, some r, ref⟩ r).2.2, rfl, rfl⟩
  | card =>
    refine ⟨fun h => by simp at h, fun _ => ⟨?_, ?_⟩⟩
    · by_cases href : ref = ""
      · subst href
        have hred : (handleCheckout fetchQty persistOk inventoryOk cart
            ⟨.card, rp, ""⟩).error = some POSError.missingReference := by
          simp [handleCheckout, hne']
        exact iff_of_true hred rfl
      · have href' : (ref == "") = false := by simpa using href
        have hred : handleCheckout fetchQty persistOk inventoryOk cart
            ⟨.card, rp, ref⟩ = checkoutCommit fetchQty persistOk inventoryOk cart
            ⟨.card, rp, ref⟩ (calculateTotal cart) := by
          simp [handleCheckout, hne', href']
        rw [hred]
        exact iff_of_false
          (checkoutCommit_shape fetchQty persistOk inventoryOk cart
            ⟨.card, rp, ref⟩ (calculateTotal cart)).2.1 href
    · intro href
      have href' : (ref == "") = false := by simpa using href
      have hred : handleCheckout fetchQty persistOk inventoryOk cart
          ⟨.card, rp, ref⟩ = checkoutCommit fetchQty persistOk inventoryOk cart
          ⟨.card, rp, ref⟩ (calculateTotal cart) := by
        simp [handleCheckout, hne', href']
      rw [hred]
      exact ⟨buildTransaction cart .card (calculateTotal cart) rp ref,
        (checkoutCommit_shape fetchQty persistOk inventoryOk cart
          ⟨.card, rp, ref⟩ (calculateTotal cart)).2.2, rfl, rfl⟩
  | gcash =>
    refine ⟨fun h => by simp at h, fun _ => ⟨?_, ?_⟩⟩
    · by_cases href : ref = ""
      · subst href
        have hred : (handleCheckout fetchQty persistOk inventoryOk cart
            ⟨.gcash, rp, ""⟩).error = some POSError.missingReference := by
          simp [handleCheckout, hne']
        exact iff_of_true hred rfl
      · have href' : (ref == "") = false := by simpa using href
        have hred : handleCheckout fetchQty persistOk inventoryOk cart
            ⟨.gcash, rp, ref⟩ = checkoutCommit fetchQty persistOk inventoryOk cart
            ⟨.gcash, rp, ref⟩ (calculateTotal cart) := by
          simp [handleCheckout, hne', href']
        rw [hred]
        exact iff_of_false
          (checkoutCommit_shape fetchQty persistOk inventoryOk cart
            ⟨.gcash, rp, ref⟩ (calculateTotal cart)).2.1 href
    · intro href
      have href' : (ref == "") = false := by simpa using href
      have hred : handleCheckout fetchQty persistOk inventoryOk cart
          ⟨.gcash, rp, ref⟩ = checkoutCommit fetchQty persistOk inventoryOk cart
          ⟨.gcash, rp, ref⟩ (calculateTotal cart) := by
        simp [handleCheckout, hne', href']
      rw [hred]
      exact ⟨buildTransaction cart .gcash (calculateTotal cart) rp ref,
        (checkoutCommit_shape fetchQty persistOk inventoryOk cart
          ⟨.gcash, rp, ref⟩ (calculateTotal cart)).2.2, rfl, rfl⟩

/-- Witness for the amended C3: a card checkout with a non-empty reference
builds a transaction whose received amount equals the total and whose
change is 0. -/
theorem checkout_payment_validation_witness :
    (([{ id := "p2", name := "Chips", category := "Snacks", price := 50,
         quantity := 1, barcode := none }] : List Product) ≠ [])
    ∧ ("R1234" ≠ "")
    ∧ ∃ tx, (handleCheckout (fun _ => 10) true true
        [{ id := "p2", name := "Chips", category := "Snacks", price := 50,
           quantity := 1, barcode := none }]
        { paymentMethod := .card, receivedParsed := none,
          referenceTrimmed := "R1234" }).builtTransaction = some tx
      ∧ tx.receivedAmount = calculateTotal
          [{ id := "p2", name := "Chips", category := "Snacks", price := 50,
             quantity := 1, barcode := none }]
      ∧ tx.change = 0 :=
  ⟨by decide, by decide,
   ((checkout_payment_validation (fun _ => 10) true true
      [{ id := "p2", name := "Chips", category := "Snacks", price := 50,
         quantity := 1, barcode := none }]
      { paymentMethod := .card, receivedParsed := none,
        referenceTrimmed := "R1234" } (by decide)).2
      (Or.inl rfl)).2 (by decide)⟩

lemma checkoutCommit_persist_writes (fetchQty : String → ℤ) (inventoryOk : Bool)
    (cart : List Product) (input : CheckoutInput) (received : ℚ) :
    (checkoutCommit fetchQty true inventoryOk cart input received).persisted = true
    ∧ (checkoutCommit fetchQty true inventoryOk cart input received).inventoryWrites
        = cart.map (fun item => (item.id, max 0 (fetchQty item.id - item.quantity))) := by
  cases inventoryOk <;> simp [checkoutCommit]

/-- C4: once the transaction persists, checkout issues exactly one inventory
write-back per cart line, the written quantity being
`max(0, refetched current - requested)`, hence never negative. -/
theorem checkout_inventory_writeback (fetchQty : String → ℤ) (inventoryOk : Bool)
    (cart : List Product) (input : CheckoutInput)
    (hne : cart ≠ []) (hval : paymentAccepted cart input = true) :
    (handleCheckout fetchQty true inventoryOk cart input).persisted = true
    ∧ (handleCheckout fetchQty true inventoryOk cart input).inventoryWrites
        = cart.map (fun item => (item.id, max 0 (fetchQty item.id - item.quantity)))
    ∧ ∀ w ∈ (handleCheckout fetchQty true inventoryOk cart input).inventoryWrites,
        0 ≤ w.2 := by
  obtain ⟨pm, rp, ref⟩ := input
  have hne' : cart.isEmpty = false := by
    simpa [List.isEmpty_iff] using hne
  have hwrites : ∀ w ∈ cart.map (fun item =>
      (item.id, max 0 (fetchQty item.id - item.quantity))), (0:ℤ) ≤ w.2 := by
    intro w hw
    obtain ⟨p, _, rfl⟩ := List.mem_map.mp hw
    exact le_max_left 0 _
  cases pm with
  | cash =>
    have hrej : cashRejected rp (calculateTotal cart) = false := by
      simpa [paymentAccepted] using hval
    have hred : handleCheckout fetchQty true inventoryOk cart
        ⟨.cash, rp, ref⟩ = checkoutCommit fetchQty true inventoryOk cart
        ⟨.cash, rp, ref⟩ (rp.getD 0) := by
      simp [handleCheckout, hne', hrej]
    rw [hred]
    obtain ⟨h1, h2⟩ := checkoutCommit_persist_writes fetchQty inventoryOk cart
      ⟨.cash, rp, ref⟩ (rp.getD 0)
    exact ⟨h1, h2, h2 ▸ hwrites⟩
  | card =>
    have href' : (ref == "") = false := by
      simpa [paymentAccepted] using hval
    have hred : handleCheckout fetchQty true inventoryOk cart
        ⟨.card, rp, ref⟩ = checkoutCommit fetchQty true inventoryOk cart
        ⟨.card, rp, ref⟩ (calculateTotal cart) := by
      simp [handleCheckout, hne', href']
    rw [hred]
    obtain ⟨h1, h2⟩ := checkoutCommit_persist_writes fetchQty inventoryOk cart
      ⟨.card, rp, ref⟩ (calculateTotal cart)
    exact ⟨h1, h2, h2 ▸ hwrites⟩
  | gcash =>
    have href' : (ref == "") = false := by
      simpa [paymentAccepted] using hval
    have hred : handleCheckout fetchQty true inventoryOk cart
        ⟨.gcash, rp, ref⟩ = checkoutCommit fetchQty true inventoryOk cart
        ⟨.gcash, rp, ref⟩ (calculateTotal cart) := by
      simp [handleCheckout, hne', href']
    rw [hred]
    obtain ⟨h1, h2⟩ := checkoutCommit_persist_writes fetchQty inventoryOk cart
      ⟨.gcash, rp, ref⟩ (calculateTotal cart)
    exact ⟨h1, h2, h2 ▸ hwrites⟩

/-- Witness for C4: a persisted card checkout on a two-line cart issues two
write-backs. -/
theorem checkout_inventory_writeback_witness :
    (([{ id := "p1", name := "Coke", category := "Drinks", price := 25,
         quantity := 2, barcode := none },
       { id := "p2", name := "Chips", category := "Snacks", price := 50,
         quantity := 1, barcode := none }] : List Product) ≠ [])
    ∧ (handleCheckout (fun _ => 10) true true
        [{ id := "p1", name := "Coke", category := "Drinks", price := 25,
           quantity := 2, barcode := none },
         { id := "p2", name := "Chips", category := "Snacks", price := 50,
           quantity := 1, barcode := none }]
        { paymentMethod := .card, receivedParsed := none,
          referenceTrimmed := "R1234" }).inventoryWrites
      = [("p1", 8), ("p2", 9)] :=
  ⟨by decide,
   by
    rw [(checkout_inventory_writeback (fun _ => 10) true
      [{ id := "p1", name := "Coke", category := "Drinks", price := 25,
         quantity := 2, barcode := none },
       { id := "p2", name := "Chips", category := "Snacks", price := 50,
         quantity := 1, barcode := none }]
      { paymentMethod := .card, receivedParsed := none,
        referenceTrimmed := "R1234" } (by decide) (by decide)).2.1]
    decide⟩

lemma foldl_add_map_sum (f : Product → ℚ) (l : List Product) (a : ℚ) :
    l.foldl (fun t x => t + f x) a = a + (l.map f).sum := by
  induction l generalizing a with
  | nil => simp
  | cons h t ih =>
    rw [List.foldl_cons, ih (a + f h), List.map_cons, List.sum_cons, add_assoc]

lemma calculateSubtotal_eq_sum (cart : List Product) :
    calculateSubtotal cart
      = (cart.map (fun item => item.price * (item.quantity : ℚ))).sum := by
  rw [calculateSubtotal, foldl_add_map_sum, zero_add]

/-- C5: the transaction record built at checkout satisfies the arithmetic
invariants: every line subtotal is price times quantity, the transaction
subtotal is the sum of the line subtotals, the tax is 12% of the subtotal,
and `subtotal + tax = total` holds exactly. -/
theorem transaction_totals_consistent (cart : List Product) (pm : PaymentMethod)
    (received : ℚ) (receivedParsed : Option ℚ) (referenceTrimmed : String)
    (hne : cart ≠ []) (hprice : ∀ p ∈ cart, 0 ≤ p.price)
    (hqty : ∀ p ∈ cart, 0 ≤ p.quantity) :
    (∀ l ∈ (buildTransaction cart pm received receivedParsed
        referenceTrimmed).items, l.subtotal = l.price * (l.quantity : ℚ))
    ∧ (buildTransaction cart pm received receivedParsed
        referenceTrimmed).subtotal
      = ((buildTransaction cart pm received receivedParsed
          referenceTrimmed).items.map (fun l => l.subtotal)).sum
    ∧ (buildTransaction cart pm received receivedParsed referenceTrimmed).tax
      = (buildTransaction cart pm received receivedParsed
          referenceTrimmed).subtotal * (12 / 100)
    ∧ (buildTransaction cart pm received receivedParsed
          referenceTrimmed).subtotal
        + (buildTransaction cart pm received receivedParsed
            referenceTrimmed).tax
      = (buildTransaction cart pm received receivedParsed
          referenceTrimmed).total := by
  refine ⟨?_, ?_, rfl, rfl⟩
  · intro l hl
    simp only [buildTransaction, List.mem_map] at hl
    obtain ⟨p, _, rfl⟩ := hl
    rfl
  · show calculateSubtotal cart = _
    rw [calculateSubtotal_eq_sum]
    simp only [buildTransaction, List.map_map]
    rfl

/-- Witness for C5 at Scenario A's cart (price 100, quantity 2). -/
theorem transaction_totals_consistent_witness :
    (([{ id := "p1", name := "Coke", category := "Drinks", price := 100,
         quantity := 2, barcode := none }] : List Product) ≠ [])
    ∧ (buildTransaction
        [{ id := "p1", name := "Coke", category := "Drinks", price := 100,
           quantity := 2, barcode := none }] .cash 300 (some 300) "").subtotal
      + (buildTransaction
          [{ id := "p1", name := "Coke", category := "Drinks", price := 100,
             quantity := 2, barcode := none }] .cash 300 (some 300) "").tax
      = (buildTransaction
          [{ id := "p1", name := "Coke", category := "Drinks", price := 100,
             quantity := 2, barcode := none }] .cash 300 (some 300) "").total :=
  ⟨by decide,
   (transaction_totals_consistent
     [{ id := "p1", name := "Coke", category := "Drinks", price := 100,
        quantity := 2, barcode := none }] .cash 300 (some 300) ""
     (by decide)
     (by intro p hp; rw [List.mem_singleton] at hp; subst hp; decide)
     (by intro p hp; rw [List.mem_singleton] at hp; subst hp; decide)).2.2.2⟩

/-- Token-to-product match shared by `processBarcodeData`,
`handleManualBarcodeSubmit` and `handleInventoryBarcode`: the token equals
the product's barcode (`===` or via `toString()`, which coincide here) or
the string form of its id — one combined predicate per product. -/
def matchesToken (p : Product) (token : String) : Bool :=
  p.barcode == some token || p.id == token

/-- Catalog lookup: `products.find(p => matches)`, first match in catalog
iteration order. -/
def resolveToken (products : List Product) (token : String) : Option Product :=
  products.find? (fun p => matchesToken p token)

/-- Modelled from the claim's wording, for comparison with `resolveToken`:
first product whose barcode equals the token, falling back to id equality
only when no barcode match exists anywhere in the catalog. -/
def resolveTokenSpec (products : List Product) (token : String) : Option Product :=
  match products.find? (fun p => p.barcode == some token) with
  | some p => some p
  | none => products.find? (fun p => p.id == token)

/-- Mutable router refs relevant to duplicate suppression. -/
structure RouterState where
  isProcessing : Bool
  lastProcessed : String
  lastProcessedTime : ℤ
deriving DecidableEq, Repr

/-- The single routed outcome of one `processBarcodeData` call. -/
inductive RouteOutcome where
  | discarded
  | unknownBarcode
  | outOfStock (p : Product)
  | navigateToPOS (p : Product)
  | setBarcodeData (p : Product)
deriving DecidableEq, Repr

/-- Screen-dependent duplicate-suppression window in milliseconds:
500 on the sale screen (`/pos`), 2000 elsewhere. -/
def duplicateTimeout (pathname : String) : ℤ :=
  if pathname == "/pos" then 500 else 2000

/-- Embeds `processBarcodeData(barcode)` called at time `now`: silently discard
when a resolution is in flight or the same token was last processed within
the window; otherwise record the token and time, resolve it against the
catalog, and route by stock and screen. The processing flag is modelled as
already reset in the returned state (the source resets it 300 ms after the
call completes). -/
def processBarcodeData (products : List Product) (pathname : String)
    (st : RouterState) (barcode : String) (now : ℤ) :
    RouterState × RouteOutcome :=
  if st.isProcessing
      || (st.lastProcessed == barcode
          && decide (now - st.lastProcessedTime < duplicateTimeout pathname)) then
    (st, .discarded)
  else
    let st' : RouterState :=
      { isProcessing := false, lastProcessed := barcode, lastProcessedTime := now }
    match resolveToken products barcode with
    | none => (st', .unknownBarcode)
    | some p =>
      if p.quantity ≤ 0 then (st', .outOfStock p)
      else if !(pathname == "/pos") then (st', .navigateToPOS p)
      else (st', .setBarcodeData p)

lemma processBarcodeData_state_after (products : List Product)
    (pathname : String) (st : RouterState) (barcode : String) (now : ℤ)
    (h : (st.isProcessing
      || (st.lastProcessed == barcode
          && decide (now - st.lastProcessedTime < duplicateTimeout pathname)))
      = false) :
    (processBarcodeData products pathname st barcode now).1
      = { isProcessing := false, lastProcessed := barcode,
          lastProcessedTime := now }
    ∧ (processBarcodeData products pathname st barcode now).2
        ≠ RouteOutcome.discarded := by
  unfold processBarcodeData
  rw [h]
  simp only [Bool.false_eq_true, if_false]
  cases hres : resolveToken products barcode with
  | none => exact ⟨rfl, by simp⟩
  | some p =>
    by_cases hq : p.quantity ≤ 0
    · simp [hq]
    · by_cases hp : pathname == "/pos" <;> simp [hq, hp]

/-- C6: a token equal to the last-processed one arriving within the
screen-dependent dedup window (500 ms on `/pos`, 2000 ms elsewhere), or any
token while a resolution is in flight, is discarded silently with the
router state untouched; consequently a second resolution of the same token
within the window after a non-discarded one is itself discarded, so the
pair yields exactly one routed action. -/
theorem duplicate_token_suppressed (products : List Product) (pathname : String)
    (st : RouterState) (barcode : String) (now now' : ℤ) :
    (st.isProcessing = true
      ∨ (st.lastProcessed = barcode
          ∧ now - st.lastProcessedTime < duplicateTimeout pathname) →
      processBarcodeData products pathname st barcode now
        = (st, RouteOutcome.discarded))
    ∧ ((processBarcodeData products pathname st barcode now).2
          ≠ RouteOutcome.discarded →
        now' - now < duplicateTimeout pathname →
        (processBarcodeData products pathname st barcode now).2
            ≠ RouteOutcome.discarded
        ∧ processBarcodeData products pathname
            (processBarcodeData products pathname st barcode now).1 barcode now'
          = ((processBarcodeData products pathname st barcode now).1,
              RouteOutcome.discarded)) := by
  constructor
  · intro h
    have hguard : (st.isProcessing
        || (st.lastProcessed == barcode
            && decide (now - st.lastProcessedTime < duplicateTimeout pathname)))
        = true := by
      rcases h with h | ⟨h1, h2⟩
      · simp [h]
      · simp [h1, h2]
    unfold processBarcodeData
    rw [hguard]
    simp
  · intro hno hwin
    have hguard : (st.isProcessing
        || (st.lastProcessed == barcode
            && decide (now - st.lastProcessedTime < duplicateTimeout pathname)))
        = false := by
      by_contra hc
      have hguard' : (st.isProcessing
          || (st.lastProcessed == barcode
              && decide (now - st.lastProcessedTime < duplicateTimeout pathname)))
          = true := by
        cases hb : (st.isProcessing
            || (st.lastProcessed == barcode
                && decide (now - st.lastProcessedTime < duplicateTimeout pathname)))
        · exact absurd hb hc
        · rfl
      exact hno (by unfold processBarcodeData; rw [hguard']; simp)
    obtain ⟨hst, _⟩ := processBarcodeData_state_after products pathname st
      barcode now hguard
    refine ⟨hno, ?_⟩
    rw [hst]
    unfold processBarcodeData
    simp [hwin]

/-- Witness for C6: a fresh router state routes token "8991234567890" once;
40 ms later the identical token is discarded (Scenario C). -/
theorem duplicate_token_suppressed_witness :
    ((processBarcodeData
        [{ id := "p1", name := "Coke", category := "Drinks", price := 25,
           quantity := 3, barcode := some "8991234567890" }] "/pos"
        { isProcessing := false, lastProcessed := "", lastProcessedTime := 0 }
        "8991234567890" 100000).2 ≠ RouteOutcome.discarded)
    ∧ ((100040 : ℤ) - 100000 < duplicateTimeout "/pos")
    ∧ processBarcodeData
        [{ id := "p1", name := "Coke", category := "Drinks", price := 25,
           quantity := 3, barcode := some "8991234567890" }] "/pos"
        (processBarcodeData
          [{ id := "p1", name := "Coke", category := "Drinks", price := 25,
             quantity := 3, barcode := some "8991234567890" }] "/pos"
          { isProcessing := false, lastProcessed := "", lastProcessedTime := 0 }
          "8991234567890" 100000).1 "8991234567890" 100040
      = ((processBarcodeData
          [{ id := "p1", name := "Coke", category := "Drinks", price := 25,
             quantity := 3, barcode := some "8991234567890" }] "/pos"
          { isProcessing := false, lastProcessed := "", lastProcessedTime := 0 }
          "8991234567890" 100000).1, RouteOutcome.discarded) :=
  ⟨by decide, by decide,
   ((duplicate_token_suppressed
      [{ id := "p1", name := "Coke", category := "Drinks", price := 25,
         quantity := 3, barcode := some "8991234567890" }] "/pos"
      { isProcessing := false, lastProcessed := "", lastProcessedTime := 0 }
      "8991234567890" 100000 100040).2 (by decide) (by decide)).2⟩

/-- C8 counterexample: with a catalog where the first product's id equals
the token and a later product's barcode equals the same token, the combined
single-pass `find` returns the id-matching first product, while the claim's
barcode-first rule would return the later barcode-matching product. -/
theorem resolveToken_no_barcode_precedence :
    resolveToken
      [{ id := "1234", name := "A", category := "C", price := 1,
         quantity := 1, barcode := some "9999" },
       { id := "b2", name := "B", category := "C", price := 1,
         quantity := 1, barcode := some "1234" }] "1234"
      = some { id := "1234", name := "A", category := "C", price := 1,
               quantity := 1, barcode := some "9999" }
    ∧ resolveTokenSpec
        [{ id := "1234", name := "A", category := "C", price := 1,
           quantity := 1, barcode := some "9999" },
         { id := "b2", name := "B", category := "C", price := 1,
           quantity := 1, barcode := some "1234" }] "1234"
      = some { id := "b2", name := "B", category := "C", price := 1,
               quantity := 1, barcode := some "1234" }
    ∧ ({ id := "1234", name := "A", category := "C", price := 1,
         quantity := 1, barcode := some "9999" } : Product)
      ≠ { id := "b2", name := "B", category := "C", price := 1,
          quantity := 1, barcode := some "1234" } := by
  refine ⟨rfl, rfl, ?_⟩
  decide

/-- C8 (amended): resolution selects the first product, in catalog
iteration order, for which the token equals either its barcode or the
string form of its id — one combined test per product, so a barcode match
on a later product does not take precedence over an id match on an earlier
one. -/
theorem resolveToken_first_combined_match (products : List Product)
    (token : String) :
    (∀ p, resolveToken products token = some p ↔
      (matchesToken p token = true
        ∧ ∃ l₁ l₂, products = l₁ ++ p :: l₂
            ∧ ∀ q ∈ l₁, matchesToken q token = false))
    ∧ (resolveToken products token = none ↔
        ∀ q ∈ products, matchesToken q token = false) := by
  constructor
  · intro p
    rw [resolveToken, List.find?_eq_some]
    simp only [Bool.not_eq_true']
  · rw [resolveToken, List.find?_eq_none]
    simp only [Bool.not_eq_true]

/-- Witness for the amended C8: in the two-product catalog above the
combined first-match characterization puts the id-matching product first
with an empty prefix. -/
theorem resolveToken_first_combined_match_witness :
    matchesToken { id := "1234", name := "A", category := "C", price := 1,
                   quantity := 1, barcode := some "9999" } "1234" = true
    ∧ resolveToken
        [{ id := "1234", name := "A", category := "C", price := 1,
           quantity := 1, barcode := some "9999" },
         { id := "b2", name := "B", category := "C", price := 1,
           quantity := 1, barcode := some "1234" }] "1234"
      = some { id := "1234", name := "A", category := "C", price := 1,
               quantity := 1, barcode := some "9999" } :=
  ⟨by decide,
   ((resolveToken_first_combined_match
      [{ id := "1234", name := "A", category := "C", price := 1,
         quantity := 1, barcode := some "9999" },
       { id := "b2", name := "B", category := "C", price := 1,
         quantity := 1, barcode := some "1234" }] "1234").1
      { id := "1234", name := "A", category := "C", price := 1,
        quantity := 1, barcode := some "9999" }).mpr
    ⟨by decide,
     [],
     [{ id := "b2", name := "B", category := "C", price := 1,
        quantity := 1, barcode := some "1234" }],
     rfl,
     by intro q hq; simp at hq⟩⟩

/-- One cart mutation as dispatched by the POS screen UI. -/
inductive CartOp where
  | add (fetchQty : String → ℤ) (product : Product)
  | update (fetchQty : String → ℤ) (productId : String) (newQuantity : ℤ)
  | remove (productId : String)

/-- Applies one operation, keeping the resulting cart (a rejected mutation
leaves the cart unchanged). -/
def applyCartOp (cart : List Product) : CartOp → List Product
  | .add fetchQty product => (addToCart fetchQty cart product).1
  | .update fetchQty productId newQuantity =>
      (updateQuantity fetchQty cart productId newQuantity).1
  | .remove productId => removeFromCart cart productId

/-- Runs a sequence of cart operations from the empty cart. -/
def runCartOps (ops : List CartOp) : List Product :=
  ops.foldl applyCartOp []

lemma map_id_of_id_preserving (cart : List Product) (f : Product → Product)
    (hf : ∀ p ∈ cart, (f p).id = p.id) :
    (cart.map f).map (fun item => item.id)
      = cart.map (fun item => item.id) := by
  rw [List.map_map]
  exact List.map_congr_left hf

lemma applyCartOp_preserves_nodup (cart : List Product) (op : CartOp)
    (h : (cart.map (fun item => item.id)).Nodup) :
    ((applyCartOp cart op).map (fun item => item.id)).Nodup := by
  cases op with
  | add fetchQty product =>
    show (((addToCart fetchQty cart product).1).map _).Nodup
    unfold addToCart
    by_cases hle : fetchQty product.id ≤ qtyOf cart product.id
    · simpa [hle] using h
    · simp only [if_neg hle]
      cases hfd : cart.find? (fun item => item.id == product.id) with
      | some v =>
        simp only [hfd, Option.isSome_some, if_true]
        rw [map_id_of_id_preserving]
        · exact h
        · intro p _
          by_cases hp : p.id == product.id <;> simp [hp]
      | none =>
        simp only [hfd, Option.isSome_none, Bool.false_eq_true, if_false]
        have hnotin : product.id ∉ cart.map (fun item => item.id) := by
          intro hmem
          obtain ⟨q, hq, hqid⟩ := List.mem_map.mp hmem
          have := List.find?_eq_none.mp hfd q hq
          simp [hqid] at this
        rw [List.map_append]
        rw [List.nodup_append]
        refine ⟨h, by simp, ?_⟩
        intro a ha hb
        simp only [List.map_cons, List.map_nil, List.mem_singleton] at hb
        subst hb
        exact hnotin ha
  | update fetchQty productId newQuantity =>
    show (((updateQuantity fetchQty cart productId newQuantity).1).map _).Nodup
    unfold updateQuantity removeFromCart
    by_cases hq : newQuantity < 1
    · simp only [if_pos hq]
      exact List.Nodup.sublist
        ((List.filter_sublist cart).map (fun item => item.id)) h
    · simp only [if_neg hq]
      by_cases hlt : fetchQty productId < newQuantity
      · simpa [hlt] using h
      · simp only [if_neg hlt]
        rw [map_id_of_id_preserving]
        · exact h
        · intro p _
          by_cases hp : p.id == productId <;> simp [hp]
  | remove productId =>
    show ((removeFromCart cart productId).map _).Nodup
    unfold removeFromCart
    exact List.Nodup.sublist
      ((List.filter_sublist cart).map (fun item => item.id)) h

lemma runCartOps_go_nodup (ops : List CartOp) (cart : List Product)
    (h : (cart.map (fun item => item.id)).Nodup) :
    ((ops.foldl applyCartOp cart).map (fun item => item.id)).Nodup := by
  induction ops generalizing cart with
  | nil => exact h
  | cons op rest ih =>
    exact ih _ (applyCartOp_preserves_nodup cart op h)

/-- C10: every sequence of `addToCart` / `updateQuantity` / `removeFromCart`
operations starting from the empty cart keeps cart-line product ids
pairwise distinct, and `updateQuantity` with a new quantity below 1 removes
that product's line entirely. -/
theorem cart_lines_unique (ops : List CartOp) :
    ((runCartOps ops).map (fun item => item.id)).Nodup
    ∧ ∀ (fetchQty : String → ℤ) (cart : List Product) (productId : String)
        (newQuantity : ℤ), newQuantity < 1 →
        ∀ item ∈ (updateQuantity fetchQty cart productId newQuantity).1,
          item.id ≠ productId := by
  refine ⟨runCartOps_go_nodup ops [] (by simp), ?_⟩
  intro fetchQty cart productId newQuantity hq item hmem
  unfold updateQuantity removeFromCart at hmem
  rw [if_pos hq] at hmem
  have hmem' := List.mem_filter.mp hmem
  simpa using hmem'.2

/-- Witness for C10: dropping a line's quantity to 0 removes it. -/
theorem cart_lines_unique_witness :
    ((0:ℤ) < 1)
    ∧ ∀ item ∈ (updateQuantity (fun _ => 5)
        [{ id := "p1", name := "Coke", category := "Drinks", price := 25,
           quantity := 2, barcode := none }] "p1" 0).1,
        item.id ≠ "p1" :=
  ⟨by decide,
   (cart_lines_unique []).2 (fun _ => 5)
     [{ id := "p1", name := "Coke", category := "Drinks", price := 25,
        quantity := 2, barcode := none }] "p1" 0 (by decide)⟩

/-- JS `String.prototype.trim()`: strips leading and trailing whitespace.
Modelled directly on the character list so that it evaluates by reduction
(the buffers only ever accumulate non-whitespace characters). -/
def jsTrim (s : String) : String :=
  ⟨((s.data.dropWhile Char.isWhitespace).reverse.dropWhile
      Char.isWhitespace).reverse⟩

/-- Decoder mutable state: the scan buffer (`bufferRef`) and whether an
inactivity timer is pending (`timeoutRef`). -/
structure DecoderState where
  buffer : String
  timerArmed : Bool
deriving DecidableEq, Repr

/-- Page context read by the global keydown handler: the reentrant
suspension counter, the current route, and the in-flight resolution flag. -/
structure KeyContext where
  suspendCount : ℕ
  pathname : String
  isProcessing : Bool
deriving DecidableEq, Repr

/-- The character class `/^[a-zA-Z0-9\-_.]$/` accepted by the cross-page
decoders: a single alphanumeric character or one of the three listed
punctuation characters. -/
def acceptedKey (key : String) : Bool :=
  match key.toList with
  | [c] => c.isAlphanum || c == '-' || c == '_' || c == '.'
  | _ => false

/-- Embeds `handleKeyDown` of the global `BarcodeProvider`: filters (suspension,
editable target, inventory route, in-flight resolution, multi-character
non-Enter keys) leave the state untouched; past them the pending timer is
cancelled, Enter commits the trimmed buffer when at least 4 characters long
and clears it, an accepted character appends and re-arms the timer, and any
other single character only leaves the timer cancelled. The emitted token,
if any, is returned alongside the new state. -/
def handleKeyDown (ctx : KeyContext) (targetEditable : Bool)
    (st : DecoderState) (key : String) : DecoderState × Option String :=
  if ctx.suspendCount > 0 then (st, none)
  else if targetEditable then (st, none)
  else if ctx.pathname == "/inventory" then (st, none)
  else if ctx.isProcessing then (st, none)
  else if key.length > 1 && !(key == "Enter") then (st, none)
  else if key == "Enter" then
    ({ buffer := "", timerArmed := false },
      if 4 ≤ (jsTrim st.buffer).length then some (jsTrim st.buffer) else none)
  else if acceptedKey key then
    ({ buffer := st.buffer ++ key, timerArmed := true }, none)
  else
    ({ st with timerArmed := false }, none)

/-- Expiry of the 150 ms inactivity timer of the global decoder: commits
the trimmed buffer when at least 4 characters long, clears it either way. -/
def inactivityTimerFire (st : DecoderState) : DecoderState × Option String :=
  if st.timerArmed then
    ({ buffer := "", timerArmed := false },
      if 4 ≤ (jsTrim st.buffer).length then some (jsTrim st.buffer) else none)
  else (st, none)

/-- Embeds `handleInventoryKeyDown`: identical filters and buffer dynamics to
`handleKeyDown` minus the route check, with tokens routed to
`handleInventoryBarcode` instead. -/
def handleInventoryKeyDown (ctx : KeyContext) (targetEditable : Bool)
    (st : DecoderState) (key : String) : DecoderState × Option String :=
  if ctx.suspendCount > 0 then (st, none)
  else if targetEditable then (st, none)
  else if ctx.isProcessing then (st, none)
  else if key.length > 1 && !(key == "Enter") then (st, none)
  else if key == "Enter" then
    ({ buffer := "", timerArmed := false },
      if 4 ≤ (jsTrim st.buffer).length then some (jsTrim st.buffer) else none)
  else if acceptedKey key then
    ({ buffer := st.buffer ++ key, timerArmed := true }, none)
  else
    ({ st with timerArmed := false }, none)

/-- State of the product-creation form's modal-scoped decoder
(`handleBarcodeKeyDown` with `barcodeBufferRef`, `barcodeTimeoutRef` and
the `isScanningBarcode` toggle). -/
structure FormScanState where
  buffer : String
  timerArmed : Bool
  isScanningBarcode : Bool
deriving DecidableEq, Repr

/-- The character class `/^[a-zA-Z0-9]$/` of the form decoder. -/
def formAcceptedKey (key : String) : Bool :=
  match key.toList with
  | [c] => c.isAlphanum
  | _ => false

/-- Embeds `handleBarcodeKeyDown` of the product-creation form: inactive unless
scanning; editable targets other than the barcode input are left alone;
past the filters the pending timer is cancelled, Enter emits the trimmed
buffer and clears it only when the buffer is longer than 6 characters
(a shorter buffer is kept), an accepted alphanumeric character appends and
re-arms the timer, and anything else only leaves the timer cancelled. -/
def handleBarcodeKeyDown (st : FormScanState) (key : String)
    (targetIsBarcodeInput targetEditableField : Bool) :
    FormScanState × Option String :=
  if !st.isScanningBarcode then (st, none)
  else if !targetIsBarcodeInput && targetEditableField then (st, none)
  else if key == "Enter" then
    if 6 < st.buffer.length then
      ({ buffer := "", timerArmed := false, isScanningBarcode := false },
        some (jsTrim st.buffer))
    else ({ st with timerArmed := false }, none)
  else if formAcceptedKey key then
    ({ st with buffer := st.buffer ++ key, timerArmed := true }, none)
  else
    ({ st with timerArmed := false }, none)

/-- Expiry of the form decoder's 100 ms inactivity timer: emits the trimmed
buffer and stops scanning when longer than 6 characters, and clears the
buffer in both cases. -/
def formTimerFire (st : FormScanState) : FormScanState × Option String :=
  if st.timerArmed then
    if 6 < st.buffer.length then
      ({ buffer := "", timerArmed := false, isScanningBarcode := false },
        some (jsTrim st.buffer))
    else ({ st with buffer := "", timerArmed := false }, none)
  else (st, none)

/-- C7 counterexample: an Enter commit in the product-creation form's
decoder with a 5-character buffer emits nothing — correctly, since 5 is
below the minimum — but leaves the buffer holding "12345" instead of
clearing it, contradicting the claim that the buffer is cleared in both the
emit and discard cases. -/
theorem form_enter_keeps_short_buffer :
    handleBarcodeKeyDown
      { buffer := "12345", timerArmed := true, isScanningBarcode := true }
      "Enter" true false
      = ({ buffer := "12345", timerArmed := false, isScanningBarcode := true },
          none)
    ∧ ({ buffer := "12345", timerArmed := false,
         isScanningBarcode := true } : FormScanState).buffer ≠ "" := by
  refine ⟨rfl, ?_⟩
  decide

/-- C7 (amended): on every decoder commit the buffer is emitted only when
it meets the minimum length (trimmed length at least 4 in the cross-page
decoders, raw length above 6 in the product-creation form), a shorter
buffer is silently discarded, and the buffer is cleared in both cases —
except that the form decoder's Enter commit leaves a short buffer
unchanged (only its discard-by-timer path clears it). -/
theorem decoder_commit_min_length (ctx : KeyContext) (st : DecoderState)
    (fst : FormScanState) (hsus : ctx.suspendCount = 0)
    (hpath : (ctx.pathname == "/inventory") = false)
    (hproc : ctx.isProcessing = false)
    (hscan : fst.isScanningBarcode = true) :
    (handleKeyDown ctx false st "Enter"
      = ({ buffer := "", timerArmed := false },
          if 4 ≤ (jsTrim st.buffer).length then some (jsTrim st.buffer) else none))
    ∧ (handleInventoryKeyDown ctx false st "Enter"
      = ({ buffer := "", timerArmed := false },
          if 4 ≤ (jsTrim st.buffer).length then some (jsTrim st.buffer) else none))
    ∧ (st.timerArmed = true →
        inactivityTimerFire st
          = ({ buffer := "", timerArmed := false },
              if 4 ≤ (jsTrim st.buffer).length then some (jsTrim st.buffer) else none))
    ∧ (handleBarcodeKeyDown fst "Enter" true false
      = if 6 < fst.buffer.length then
          ({ buffer := "", timerArmed := false, isScanningBarcode := false },
            some (jsTrim fst.buffer))
        else ({ fst with timerArmed := false }, none))
    ∧ (fst.timerArmed = true →
        formTimerFire fst
          = if 6 < fst.buffer.length then
              ({ buffer := "", timerArmed := false, isScanningBarcode := false },
                some (jsTrim fst.buffer))
            else ({ fst with buffer := "", timerArmed := false }, none)) := by
  refine ⟨?_, ?_, fun ht => ?_, ?_, fun ht => ?_⟩
  · unfold handleKeyDown
    simp [hsus, hpath, hproc]
  · unfold handleInventoryKeyDown
    simp [hsus, hproc]
  · unfold inactivityTimerFire
    rw [ht]
    simp
  · unfold handleBarcodeKeyDown
    simp [hscan]
  · unfold formTimerFire
    rw [ht]
    simp

/-- Witness for the amended C7: committing the buffer "12345678" (length 8)
by Enter in the global decoder emits the token and clears the buffer. -/
theorem decoder_commit_min_length_witness :
    (({ suspendCount := 0, pathname := "/pos",
        isProcessing := false } : KeyContext).suspendCount = 0)
    ∧ handleKeyDown
        { suspendCount := 0, pathname := "/pos", isProcessing := false } false
        { buffer := "12345678", timerArmed := true } "Enter"
      = ({ buffer := "", timerArmed := false }, some "12345678") :=
  ⟨rfl,
   by
    rw [(decoder_commit_min_length
      { suspendCount := 0, pathname := "/pos", isProcessing := false }
      { buffer := "12345678", timerArmed := true }
      { buffer := "", timerArmed := false, isScanningBarcode := true }
      rfl (by decide) rfl rfl).1]
    decide⟩

/-- C9 counterexample: with buffer "1234" and a pending inactivity timer, a
single-character key outside the accepted set ("!") leaves the buffer
unchanged but cancels the pending timer (`clearTimeout` runs before the
character-class test and no new timer is armed), contradicting the claim
that the pending timer is left unchanged. -/
theorem bang_key_cancels_pending_timer :
    handleKeyDown
      { suspendCount := 0, pathname := "/pos", isProcessing := false } false
      { buffer := "1234", timerArmed := true } "!"
      = ({ buffer := "1234", timerArmed := false }, none)
    ∧ ({ buffer := "1234", timerArmed := false } : DecoderState).timerArmed
      ≠ ({ buffer := "1234", timerArmed := true } : DecoderState).timerArmed := by
  refine ⟨rfl, ?_⟩
  decide

/-- C9 (amended): a keystroke on an editable target or while the suspension
counter is positive is ignored entirely — decoder state (buffer and pending
timer) untouched, nothing emitted — in both cross-page handlers; a
single-character key outside the accepted set that is not Enter leaves the
buffer unchanged and emits nothing, but cancels any pending inactivity
timer instead of leaving it unchanged. -/
theorem keydown_filtering (ctx : KeyContext) (targetEditable : Bool)
    (st : DecoderState) (key : String) :
    (ctx.suspendCount > 0 ∨ targetEditable = true →
      handleKeyDown ctx targetEditable st key = (st, none)
      ∧ handleInventoryKeyDown ctx targetEditable st key = (st, none))
    ∧ (key.length = 1 → acceptedKey key = false →
        ctx.suspendCount = 0 → targetEditable = false →
        (ctx.pathname == "/inventory") = false → ctx.isProcessing = false →
        handleKeyDown ctx targetEditable st key
            = ({ st with timerArmed := false }, none)
        ∧ handleInventoryKeyDown ctx targetEditable st key
            = ({ st with timerArmed := false }, none)) := by
  constructor
  · intro h
    by_cases hs : ctx.suspendCount > 0
    · constructor
      · unfold handleKeyDown
        rw [if_pos hs]
      · unfold handleInventoryKeyDown
        rw [if_pos hs]
    · have hte : targetEditable = true := by
        rcases h with h | h
        · exact absurd h hs
        · exact h
      subst hte
      constructor
      · unfold handleKeyDown
        simp [hs]
      · unfold handleInventoryKeyDown
        simp [hs]
  · intro hlen hacc hs hte hpath hproc
    subst hte
    have hnotenter : (key == "Enter") = false := by
      rw [beq_eq_false_iff_ne]
      intro hk
      subst hk
      exact absurd hlen (by decide)
    have hspecial : (key.length > 1 && !(key == "Enter")) = false := by
      simp [hlen]
    constructor
    · unfold handleKeyDown
      simp [hs, hpath, hproc, hspecial, hnotenter, hacc, hlen]
    · unfold handleInventoryKeyDown
      simp [hs, hproc, hspecial, hnotenter, hacc, hlen]

/-- Witness for the amended C9: the "!" key on the sale screen with buffer
"987" keeps the buffer and cancels the timer. -/
theorem keydown_filtering_witness :
    ("!".length = 1)
    ∧ handleKeyDown
        { suspendCount := 0, pathname := "/pos", isProcessing := false } false
        { buffer := "987", timerArmed := true } "!"
      = ({ buffer := "987", timerArmed := false }, none) :=
  ⟨rfl,
   ((keydown_filtering
      { suspendCount := 0, pathname := "/pos", isProcessing := false } false
      { buffer := "987", timerArmed := true } "!").2
      rfl (by decide) rfl rfl (by decide) rfl).1⟩
